import Mathlib

/-!
Verification of the persway daemon's layout engines against its
specification.  The Rust sources under `src/` are shallowly embedded as
executable Lean definitions: the Sway tree is an inductive rose tree of
nodes, IPC round trips (`get_tree`, `get_workspaces`, the per-node
workspace resolution) become explicit parameters holding the snapshot the
corresponding call would have returned, and each `run_command` invocation
is recorded as the command string the code formats.  Fallible Rust code
(`anyhow::Result`, `panic!`/`expect`/`unwrap`) is embedded as
`Except RunError`, with `RunError.panic` marking a Rust panic and
`RunError.err` an `anyhow` error that is propagated with `?`.
-/

namespace Persway

/-- Modelled from the spec: `layout.rs` is not part of the provided sources.
Per §3 of the spec, the stack "arrangement" is one of tabbed, stacked or
tiled. -/
inductive StackLayout where
  | Tabbed
  | Stacked
  | Tiled
  deriving DecidableEq, Repr

/-- Modelled from the spec: `layout.rs` is not part of the provided sources.
Per §3 of the spec, `LayoutPolicy` is the tagged union
`Spiral | StackMain { size: 0-100, arrangement } | Manual`, with value
equality. -/
inductive WorkspaceLayout where
  | Spiral
  | StackMain (size : Nat) (stack_layout : StackLayout)
  | Manual
  deriving DecidableEq, Repr

/-- The `swayipc` node layout enumeration, as matched by `spiral.rs`. -/
inductive NodeLayout where
  | SplitH
  | SplitV
  | Tabbed
  | Stacked
  | Output
  | Dockarea
  | NoLayout
  deriving DecidableEq, Repr

/-- The pixel rectangle of a node; only `width` and `height` are consulted
(by `Spiral::layout`). -/
structure Rect where
  width : Int
  height : Int
  deriving DecidableEq, Repr

/-- A `swayipc` workspace record as used by the sources: its node id, its
workspace number (`i32`, negative when the workspace has no leading
number), its display name and its focused flag. -/
structure Workspace where
  id : Int
  num : Int
  name : String
  focused : Bool
  deriving DecidableEq, Repr

/-- The scalar payload of a tree node.  Modelled from the spec:
`node_ext.rs` is not part of the provided sources, so the `NodeExt`
predicates (`is_window`, `is_workspace`, `is_output`, `is_floating`,
`is_floating_window`, `is_floating_container`, `is_full_screen`,
`is_stacked`, `is_tabbed`) are embedded as boolean attributes of the node
snapshot, per §3 ("a node / container is a window leaf, a
split/tabbed/stacked container, a workspace, or an output") and §4.3
("if node is floating, a floating container, fullscreen, already tabbed,
or already stacked, do nothing"). -/
structure NodeInfo where
  id : Int
  layout : NodeLayout
  rect : Rect
  focused : Bool
  visible : Option Bool
  num : Option Int
  is_window : Bool
  is_workspace : Bool
  is_output : Bool
  is_floating : Bool
  is_floating_window : Bool
  is_floating_container : Bool
  is_full_screen : Bool
  is_stacked : Bool
  is_tabbed : Bool
  deriving DecidableEq, Repr

/-- A node of the Sway tree snapshot: scalar payload plus child nodes. -/
inductive Node where
  | mk (info : NodeInfo) (nodes : List Node)

def Node.info : Node → NodeInfo
  | .mk i _ => i

def Node.nodes : Node → List Node
  | .mk _ c => c

def Node.id (n : Node) : Int := n.info.id

mutual

/-- `Node::find_as_ref`: depth-first search for the first node whose
payload satisfies `p`, the node itself included. -/
def Node.find (p : NodeInfo → Bool) : Node → Option Node
  | Node.mk info children =>
    if p info then some (Node.mk info children)
    else Node.findList p children

def Node.findList (p : NodeInfo → Bool) : List Node → Option Node
  | [] => none
  | c :: cs =>
    match Node.find p c with
    | some r => some r
    | none => Node.findList p cs

end

mutual

/-- `Node::iter()`: preorder traversal of the subtree rooted at a node,
the node itself included. -/
def Node.toList : Node → List Node
  | Node.mk info children => Node.mk info children :: Node.listToList children

def Node.listToList : List Node → List Node
  | [] => []
  | c :: cs => Node.toList c ++ Node.listToList cs

end

/-- Errors of an embedded operation.  `panic` marks a Rust `panic!` /
`expect` / `unwrap` failure (terminating the executing task), `err` an
`anyhow` error propagated with `?`, and `diverge` marks a loop of the
source that never terminates on the given input. -/
inductive RunError where
  | panic (msg : String)
  | err (msg : String)
  | diverge
  deriving DecidableEq, Repr

/-- `utils::PERSWAY_TMP_WORKSPACE`. -/
def PERSWAY_TMP_WORKSPACE : String := "◕‿◕"

/-- `utils::SCRATCHPAD_WORKSPACE`. -/
def SCRATCHPAD_WORKSPACE : String := "__i3_scratch"

/-- `utils::is_scratchpad_workspace`. -/
def is_scratchpad_workspace (ws : Workspace) : Bool :=
  ws.name == SCRATCHPAD_WORKSPACE

/-- `utils::is_persway_tmp_workspace`. -/
def is_persway_tmp_workspace (ws : Workspace) : Bool :=
  ws.name == PERSWAY_TMP_WORKSPACE

/-- `should_skip_layout_of_workspace`, defined identically in both
`spiral.rs` and the event-handler `stack_main.rs`. -/
def should_skip_layout_of_workspace (ws : Workspace) : Bool :=
  is_persway_tmp_workspace ws || is_scratchpad_workspace ws

/-- `utils::get_focused_workspace`, applied to the list that
`get_workspaces()` returned: the first workspace flagged focused, or the
`anyhow` context error. -/
def getFocusedWorkspace (workspaces : List Workspace) : Except String Workspace :=
  match workspaces.find? (fun w => w.focused) with
  | some w => .ok w
  | none => .error "no focused workspace"

/-- The kinds of window events the embedded handlers distinguish
(`swayipc::WindowChange`). -/
inductive WindowChange where
  | New
  | Close
  | Focus
  | Move
  | Floating
  | Title
  deriving DecidableEq, Repr

/-- A `swayipc::WindowEvent`: the change kind and the event's container
node as captured at emission time. -/
structure WindowEvent where
  change : WindowChange
  container : Node

/-- Mutable state of the `Spiral` manager (`spiral.rs`): the last focused
container id and the instant of the last layout pass, in milliseconds. -/
structure SpiralState where
  last_focused_id : Option Int
  last_layout_time : Option Nat
  deriving DecidableEq, Repr

/-- The throttle test of `Spiral::layout`: a recorded last layout pass
less than 50 ms ago. -/
def spiralThrottled (last_layout_time : Option Nat) (now : Nat) : Bool :=
  match last_layout_time with
  | some t => now - t < 50
  | none => false

/-- `Spiral::layout` (spiral.rs lines 91-171), embedded as a pure function.
`now` is the current instant in milliseconds, `tree` the snapshot returned
by `get_tree()`, and `workspaceOf` the resolution `node.get_workspace()`
would perform for a given node id.  The returned list holds the commands
passed to `run_command`, in order; the source's only error exits are IPC
failures, which the snapshot parameters replace, so the embedding is
total. -/
def Spiral.layout (st : SpiralState) (now : Nat) (event : WindowEvent) (tree : Node)
    (workspaceOf : Int → Except String Workspace) : SpiralState × List String :=
  if spiralThrottled st.last_layout_time now then (st, [])
  else
    let st := { st with last_layout_time := some now }
    if st.last_focused_id == some event.container.id then (st, [])
    else
      let st := { st with last_focused_id := some event.container.id }
      match Node.find (fun i => i.id == event.container.id) tree with
      | none => (st, [])
      | some node =>
        match workspaceOf node.id with
        | .error _ => (st, [])
        | .ok ws =>
          if should_skip_layout_of_workspace ws then (st, [])
          else if !(node.info.is_floating_window || node.info.is_floating_container
              || node.info.is_full_screen || node.info.is_stacked
              || node.info.is_tabbed) then
            let desired :=
              if node.info.rect.height > node.info.rect.width then NodeLayout.SplitV
              else NodeLayout.SplitH
            if node.info.layout == desired then (st, [])
            else
              let nid := node.id
              -- the source matches on `desired`, whose third arm is unreachable
              let cmd :=
                if desired == NodeLayout.SplitV then s!"[con_id={nid}] split v"
                else s!"[con_id={nid}] split h"
              (st, [cmd])
          else (st, [])

/-- The stack-area layout command chosen by
`StackMain::on_new_window` from its `stack_layout` parameter. -/
def layoutCmdOf (stack_layout : StackLayout) : String :=
  match stack_layout with
  | .Tabbed => "split v; layout tabbed"
  | .Stacked => "split v; layout stacking"
  | .Tiled => "split v"

/-- `StackMain::on_new_window` (event-handler stack_main.rs lines 76-160).
`tree` is the `get_tree()` snapshot and `workspaceOf` the per-node
`get_workspace()` resolution.  Note that the source resolves the event's
node with `unwrap_or_else(|| panic!(..))`, and the workspace subtree and
the main/stack slots with `unwrap`/`expect`: those paths are embedded as
`RunError.panic`. -/
def StackMain.on_new_window (size : Nat) (stack_layout : StackLayout) (tree : Node)
    (event : WindowEvent) (workspaceOf : Int → Except String Workspace) :
    Except RunError (List String) :=
  match Node.find (fun i => i.id == event.container.id) tree with
  | none =>
    let cid := event.container.id
    .error (.panic s!"no node found with id {cid}")
  | some node =>
    match workspaceOf node.id with
    | .error e => .error (.err e)
    | .ok ws =>
      if should_skip_layout_of_workspace ws then .ok []
      else if node.info.is_floating || node.info.is_full_screen then .ok []
      else
        match Node.find (fun i => i.id == ws.id) tree with
        | none => .error (.panic "called Option.unwrap on a None value")
        | some wstree =>
          let layout := layoutCmdOf stack_layout
          match wstree.nodes.length with
          | 1 =>
            let cid := event.container.id
            .ok [s!"[con_id={cid}] focus; split h"]
          | 2 =>
            match wstree.nodes.getLast? with
            | none => .error (.panic "main window not found")
            | some main =>
              match wstree.nodes.head? with
              | none => .error (.panic "stack container not found")
              | some stack =>
                let cmd :=
                  if stack.info.is_window then
                    let sid := stack.id
                    let mid := main.id
                    s!"[con_id={sid}] focus; {layout}; resize set width {100 - size}; [con_id={mid}] focus"
                  else
                    match Node.find (fun i => i.id == event.container.id) stack with
                    | some node =>
                      let mid := main.id
                      let nid := node.id
                      s!"[con_id={mid}] focus; swap container with con_id {nid}; [con_id={nid}] focus"
                    | none => "nop event container not in stack"
                .ok [cmd]
          | 3 =>
            match (wstree.nodes.drop 1).find?
                (fun n => n.info.is_window && n.id != event.container.id) with
            | none => .error (.panic "main window not found")
            | some main =>
              match wstree.nodes.head? with
              | none => .error (.panic "stack container not found")
              | some stack =>
                let sid := stack.id
                let stack_mark := s!"_stack_{sid}"
                let cid := event.container.id
                let mid := main.id
                .ok [s!"[con_id={sid}] mark --add {stack_mark}; [con_id={cid}] focus; move container to mark {stack_mark}; [con_mark={stack_mark}] unmark {stack_mark}; [con_id={mid}] focus; swap container with con_id {cid}; [con_id={cid}] focus"]
          | _ => .ok []

/-- The selection of the "current" stack window inside
`StackMain::on_close_window`: the focused window in the stack subtree, or
else the first node reported visible
(`find focused .unwrap_or_else(|| find visible .expect(..))`). -/
def stackCurrentOf (stack : Node) : Option Node :=
  match Node.find (fun i => i.is_window && i.focused) stack with
  | some n => some n
  | none => Node.find (fun i => i.visible.getD false) stack

/-- `StackMain::on_close_window` (event-handler stack_main.rs lines
166-208).  `workspaces` is the `get_workspaces()` snapshot used by
`get_focused_workspace`. -/
def StackMain.on_close_window (size : Nat) (tree : Node) (event : WindowEvent)
    (workspaces : List Workspace) : Except RunError (List String) :=
  match getFocusedWorkspace workspaces with
  | .error e => .error (.err e)
  | .ok ws =>
    if should_skip_layout_of_workspace ws then .ok []
    else
      match Node.find (fun i => i.id == ws.id) tree with
      | none => .error (.panic "called Option.unwrap on a None value")
      | some wstree =>
        if wstree.nodes.length == 1 then
          match wstree.nodes.find? (fun n => n.id != event.container.id) with
          | none => .ok []
          | some stack =>
            match stackCurrentOf stack with
            | none => .error (.panic "stack should have a visible node")
            | some stack_current =>
              let scid := stack_current.id
              if (wstree.toList.filter (fun n => n.info.is_window)).length == 1 then
                .ok [s!"[con_id={scid}] focus; layout splith; move up"]
              else
                .ok [s!"[con_id={scid}] focus; move right; resize set width {size}"]
        else .ok []

/-- `StackMain::stack_focus_advance` (command-handler stack_main.rs lines
17-63).  `tree` and `workspaces` are the snapshots of its `get_tree()` and
`get_focused_workspace` calls.  The source walks `stack.nodes` cyclically
until it passes the anchor; when the anchor is not among the direct
children that loop never terminates, which the embedding marks
`RunError.diverge`. -/
def StackMain.stack_focus_advance (reverse : Bool) (tree : Node)
    (workspaces : List Workspace) : Except RunError (List String) :=
  match getFocusedWorkspace workspaces with
  | .error e => .error (.err e)
  | .ok ws =>
    match Node.find (fun i => i.id == ws.id) tree with
    | none => .error (.panic "called Option.unwrap on a None value")
    | some wstree =>
      match wstree.nodes.head? with
      | none => .ok []
      | some stack =>
        if stack.nodes.isEmpty then .ok []
        else
          let focused := Node.find (fun i => i.is_window && i.focused) stack
          let visibleCount :=
            (stack.toList.filter
              (fun n => n.info.is_window && n.info.visible.getD false)).length
          let initial := if reverse then stack.nodes.head? else stack.nodes.getLast?
          let stack_current :=
            match focused with
            | some n => some n
            | none =>
              if visibleCount == 1 then Node.find (fun i => i.visible.getD false) stack
              else initial
          match stack_current with
          | none => .error (.panic "called Option.unwrap on a None value")
          | some stack_current =>
            let lst := if reverse then stack.nodes.reverse else stack.nodes
            match lst.findIdx? (fun n => n.id == stack_current.id) with
            | none => .error .diverge
            | some i =>
              match lst[(i + 1) % lst.length]? with
              | none => .error (.panic "index out of range")
              | some nxt =>
                let nid := nxt.id
                .ok [s!"[con_id={nid}] focus;"]

/-- `StackMain::stack_main_rotate` (command-handler stack_main.rs lines
73-174).  `tree` is the snapshot of the first `get_tree()` call and
`tree2` the snapshot of the second one, fetched after the first command
batch ran.  The first returned string is the first `run_command` batch,
the second the final main/stack-edge swap. -/
def StackMain.stack_main_rotate (reverse : Bool) (tree : Node)
    (workspaces : List Workspace) (tree2 : Node) : Except RunError (List String) :=
  match getFocusedWorkspace workspaces with
  | .error e => .error (.err e)
  | .ok ws =>
    match Node.find (fun i => i.id == ws.id) tree with
    | none => .error (.panic "called Option.unwrap on a None value")
    | some wstree =>
      match wstree.nodes.head? with
      | none => .ok []
      | some stack =>
        if stack.nodes.isEmpty then .ok []
        else
          match wstree.nodes.getLast? with
          | none => .error (.panic "main window not found")
          | some main =>
            let stack_leaves := stack.toList.filter (fun n => n.info.is_window)
            match stack.nodes.head? with
            | none => .error (.panic "called Option.unwrap on a None value")
            | some stackFirstChild =>
              let sfc := stackFirstChild.id
              let mid := main.id
              let focusLine := s!"[con_id={sfc}] focus: [con_id={mid}] focus; "
              let cmd1 :=
                if reverse then
                  let revLeaves := stack_leaves.reverse
                  let pairs := revLeaves.zip (revLeaves.drop 1)
                  String.join (pairs.map (fun p =>
                    let aid := p.1.id
                    let bid := p.2.id
                    s!"[con_id={aid}] focus; swap container with con_id {bid}; "
                      ++ focusLine)) ++ focusLine
                else
                  String.join (List.replicate (stack_leaves.length - 1) focusLine)
                    ++ focusLine
              match Node.find (fun i => i.id == ws.id) tree2 with
              | none => .error (.panic "called Option.unwrap on a None value")
              | some wstree2 =>
                match wstree2.nodes.getLast? with
                | none => .error (.panic "main window not found")
                | some main2 =>
                  match wstree2.nodes.head? with
                  | none => .error (.panic "stack container not found")
                  | some stack2 =>
                    let stack2Leaves :=
                      stack2.toList.filter (fun n => n.info.is_window)
                    let edge :=
                      if reverse then stack2Leaves.getLast? else stack2Leaves.head?
                    match edge with
                    | none => .error (.panic "called Option.unwrap on a None value")
                    | some e =>
                      let m2 := main2.id
                      let eid := e.id
                      .ok [cmd1,
                        s!"[con_id={m2}] focus; swap container with con_id {eid}; [con_id={eid}] focus"]

/-- `StackMain::stack_swap_main` (command-handler stack_main.rs lines
184-218). -/
def StackMain.stack_swap_main (tree : Node) (workspaces : List Workspace) :
    Except RunError (List String) :=
  match getFocusedWorkspace workspaces with
  | .error e => .error (.err e)
  | .ok ws =>
    match Node.find (fun i => i.id == ws.id) tree with
    | none => .error (.panic "called Option.unwrap on a None value")
    | some wstree =>
      match wstree.nodes.head? with
      | none => .ok []
      | some stack =>
        if stack.nodes.isEmpty then .ok []
        else
          match wstree.nodes.getLast? with
          | none => .error (.panic "main window not found")
          | some main =>
            let focused := Node.find (fun i => i.is_window && i.focused) stack
            let visibleCount :=
              (stack.toList.filter
                (fun n => n.info.is_window && n.info.visible.getD false)).length
            let initial := stack.nodes.head?
            let stack_current :=
              match focused with
              | some n => some n
              | none =>
                if visibleCount == 1 then
                  Node.find (fun i => i.visible.getD false) stack
                else initial
            match stack_current with
            | none => .error (.panic "called Option.unwrap on a None value")
            | some stack_current =>
              let mid := main.id
              let scid := stack_current.id
              .ok [s!"[con_id={mid}] focus; swap container with con_id {scid}; [con_id={scid}] focus"]

/-- `MessageHandler`'s `WorkspaceConfig`: the layout policy of one
workspace. -/
structure WorkspaceConfig where
  layout : WorkspaceLayout
  deriving DecidableEq, Repr

/-- The policy store `workspace_config: HashMap<i32, WorkspaceConfig>`,
embedded as an association list keyed by workspace number. -/
abbrev Store := List (Int × WorkspaceConfig)

def storeLookup (store : Store) (num : Int) : Option WorkspaceConfig :=
  (store.find? (fun p => p.1 == num)).map Prod.snd

/-- `MessageHandler::get_workspace_config`: the entry for `ws_num`,
inserted with the default layout on first reference. -/
def get_workspace_config (store : Store) (default_layout : WorkspaceLayout)
    (ws_num : Int) : WorkspaceConfig × Store :=
  match storeLookup store ws_num with
  | some cfg => (cfg, store)
  | none =>
    (⟨default_layout⟩, store ++ [(ws_num, ⟨default_layout⟩)])

/-- The `entry(..).and_modify(..).or_insert_with(..)` update performed by
the `ChangeLayout` branch of `handle_command`. -/
def storeSet (store : Store) (num : Int) (l : WorkspaceLayout) : Store :=
  if (storeLookup store num).isSome then
    store.map (fun p => if p.1 == num then (p.1, ⟨l⟩) else p)
  else store ++ [(num, ⟨l⟩)]

def StackLayout.debugFmt : StackLayout → String
  | .Tabbed => "Tabbed"
  | .Stacked => "Stacked"
  | .Tiled => "Tiled"

/-- Modelled from the spec: `layout.rs` is not part of the provided
sources, so the `{layout:?}` debug rendering used in the
`require_stack_main` message is embedded as the derived Rust `Debug`
output of the §3 tagged union. -/
def WorkspaceLayout.debugFmt : WorkspaceLayout → String
  | .Spiral => "Spiral"
  | .StackMain size sl =>
    let sls := sl.debugFmt
    s!"StackMain \x7b size: {size}, stack_layout: {sls} \x7d"
  | .Manual => "Manual"

/-- The failure message of `require_stack_main` up to (and excluding) its
final `change-layout stack-main` token.  The source formats the whole
message with one `ensure!` format string; the embedding splits the final
literal off so that the remediation token is a syntactic suffix — the
string value is unchanged. -/
def requireFailPre (ws_num : Int) (ws_name : String) (ld : String)
    (cmd : String) : String :=
  s!"{cmd} only works on stack-main workspaces.\nFocused workspace: {ws_num} (\x27{ws_name}\x27)\nCurrent layout: {ld}\nFix: persway "

/-- `MessageHandler::require_stack_main` (message_handler.rs lines
149-163): `ensure!` that the layout is a `StackMain` variant, with the
remediation message otherwise. -/
def require_stack_main (ws_num : Int) (ws_name : String)
    (layout : WorkspaceLayout) (cmd : String) : Except String Unit :=
  match layout with
  | .StackMain _ _ => .ok ()
  | _ =>
    let ld := layout.debugFmt
    .error (requireFailPre ws_num ws_name ld cmd ++ "change-layout stack-main")

/-- Modelled from the spec: `commands.rs` is not part of the provided
sources.  Per §3, the control command is one of `ChangeLayout(policy)`,
the five stack commands, or the internal `Daemon(...)` variant carrying
the daemon's startup arguments. -/
structure DaemonArgs where
  deriving DecidableEq, Repr

/-- Modelled from the spec: the §3 control-command union. -/
inductive PerswayCommand where
  | ChangeLayout (layout : WorkspaceLayout)
  | StackFocusNext
  | StackFocusPrev
  | StackMainRotateNext
  | StackMainRotatePrev
  | StackSwapMain
  | Daemon (args : DaemonArgs)
  deriving DecidableEq, Repr

/-- The observable side effects of one `handle_command` call: whether a
`relayout_workspace` task was spawned, and the compositor commands run by
the stack-main command engine. -/
structure Effects where
  relayout : Bool
  sway_cmds : List String
  deriving DecidableEq, Repr

def noEffects : Effects := ⟨false, []⟩

/-- Outcome plumbing shared by the five stack-command branches of
`handle_command`: a `require_stack_main` failure is surfaced with `?`, and
otherwise the command engine's result is. -/
def runCtrl (store : Store) (req : Except String Unit)
    (act : Except RunError (List String)) :
    Except RunError Unit × Store × Effects :=
  match req with
  | .error msg => (.error (.err msg), store, noEffects)
  | .ok _ =>
    match act with
    | .ok cmds => (.ok (), store, { relayout := false, sway_cmds := cmds })
    | .error e => (.error e, store, noEffects)

/-- `MessageHandler::handle_command` (message_handler.rs lines 173-263).
`workspaces` is the `get_workspaces()` snapshot shared with the command
engine, `tree` the command engine's `get_tree()` snapshot and `tree2` the
rotate command's second snapshot.  Returns the command outcome, the
updated policy store and the observable side effects.  The `Daemon`
branch is the source's `unreachable!()`, embedded as a panic with Rust's
unreachable message. -/
def handle_command (store : Store) (default_layout : WorkspaceLayout)
    (workspaces : List Workspace) (tree : Node) (tree2 : Node)
    (cmd : PerswayCommand) : Except RunError Unit × Store × Effects :=
  match getFocusedWorkspace workspaces with
  | .error e => (.error (.err e), store, noEffects)
  | .ok ws =>
    if ws.num < 0 then
      let wn := ws.name
      (.error (.err s!"Focused workspace \x27{wn}\x27 has no numeric workspace number, so persway commands that key off ws.num won\x27t apply. Consider naming workspaces with a leading number (e.g. \x271: web\x27)."),
        store, noEffects)
    else
      let cs := get_workspace_config store default_layout ws.num
      let current_layout := cs.1.layout
      let store := cs.2
      match cmd with
      | .ChangeLayout layout =>
        if current_layout == layout then (.ok (), store, noEffects)
        else
          (.ok (), storeSet store ws.num layout, { relayout := true, sway_cmds := [] })
      | .StackFocusNext =>
        runCtrl store (require_stack_main ws.num ws.name current_layout "stack-focus-next")
          (StackMain.stack_focus_advance false tree workspaces)
      | .StackFocusPrev =>
        runCtrl store (require_stack_main ws.num ws.name current_layout "stack-focus-prev")
          (StackMain.stack_focus_advance true tree workspaces)
      | .StackMainRotatePrev =>
        runCtrl store (require_stack_main ws.num ws.name current_layout "stack-main-rotate-prev")
          (StackMain.stack_main_rotate true tree workspaces tree2)
      | .StackMainRotateNext =>
        runCtrl store (require_stack_main ws.num ws.name current_layout "stack-main-rotate-next")
          (StackMain.stack_main_rotate false tree workspaces tree2)
      | .StackSwapMain =>
        runCtrl store (require_stack_main ws.num ws.name current_layout "stack-swap-main")
          (StackMain.stack_swap_main tree workspaces)
      | .Daemon _ =>
        (.error (.panic "internal error: entered unreachable code"), store, noEffects)

/-- ASCII whitespace, as recognised by Rust's
`str::split_ascii_whitespace`. -/
def isAsciiWhitespaceChar (c : Char) : Bool :=
  c == ' ' || c == '\t' || c == '\n' || c == '\x0b' || c == '\x0c' || c == '\r'

/-- `str::trim`, embedded at the character-list level: leading and
trailing whitespace removed. -/
def trimChars (l : List Char) : List Char :=
  ((l.dropWhile isAsciiWhitespaceChar).reverse.dropWhile isAsciiWhitespaceChar).reverse

def splitWordsAux : List Char → List Char → List String
  | [], acc => if acc.isEmpty then [] else [String.mk acc.reverse]
  | c :: cs, acc =>
    if isAsciiWhitespaceChar c then
      if acc.isEmpty then splitWordsAux cs []
      else String.mk acc.reverse :: splitWordsAux cs []
    else splitWordsAux cs (c :: acc)

/-- Rust's `str::split_ascii_whitespace`: the non-empty tokens between
runs of ASCII whitespace. -/
def splitAsciiWhitespace (s : String) : List String :=
  splitWordsAux (trimChars s.data) []

/-- Modelled from the spec: `commands.rs` (the clap command declarations)
is not part of the provided sources.  Per §6 the socket line is "the full
command invocation text (as it would be typed on the command line,
space-separated tokens)" and clap's `try_parse_from` treats the first
token as the program name; per §3 the commands are `change-layout` with a
policy, the five stack commands, and the `daemon` subcommand.  The
default `stack-main` parameters are not fixed by the spec and are
immaterial to the claims proved here. -/
def parse_command_line (tokens : List String) : Option PerswayCommand :=
  match tokens with
  | [] => none
  | _prog :: rest =>
    match rest with
    | ["change-layout", "spiral"] => some (.ChangeLayout .Spiral)
    | ["change-layout", "manual"] => some (.ChangeLayout .Manual)
    | ["change-layout", "stack-main"] => some (.ChangeLayout (.StackMain 70 .Stacked))
    | ["stack-focus-next"] => some .StackFocusNext
    | ["stack-focus-prev"] => some .StackFocusPrev
    | ["stack-main-rotate-next"] => some .StackMainRotateNext
    | ["stack-main-rotate-prev"] => some .StackMainRotatePrev
    | ["stack-swap-main"] => some .StackSwapMain
    | ["daemon"] => some (.Daemon ⟨⟩)
    | _ => none

/-- The command `Daemon::connection_loop` (daemon.rs lines 229-275) sends
to the dispatcher for a given socket line: the line is trimmed
(`trimChars`, folded into `splitAsciiWhitespace`), split on ASCII
whitespace and parsed; on success the parsed command is forwarded to
`handle_command` unchanged, on failure nothing is dispatched and
`fail: invalid command` is written back. -/
def dispatched_command (line : String) : Option PerswayCommand :=
  parse_command_line (splitAsciiWhitespace line)

/-- `utils::relayout_workspace` (utils.rs lines 47-112), embedded over the
snapshots of its IPC calls: `tree` from `get_tree()`, `workspaces` from
the first `get_workspaces()`, `workspaces_after` from the second one
(taken after the closure ran), and `closure_cmds` standing for the
commands the caller-supplied closure runs on its own connection.  The
result is the ordered list of commands issued on the orchestrator's
connection, with the closure's commands in their slot.  The source
compares workspace numbers with `n.num.unwrap() == ws_num`, which panics
when a traversed workspace has no number; the embedding uses
`n.num == some ws_num`, which agrees whenever every traversed workspace
carries a number. -/
def relayout_workspace (tree : Node) (ws_num : Int) (workspaces : List Workspace)
    (closure_cmds : List String) (workspaces_after : List Workspace) :
    Except RunError (List String) :=
  match tree.toList.find? (fun n => n.info.is_output
      && (n.toList.any (fun m => m.info.is_workspace && m.info.num == some ws_num))) with
  | none => .error (.err "no output found")
  | some output =>
    match output.toList.find?
        (fun m => m.info.is_workspace && m.info.num == some ws_num) with
    | none => .error (.err "no workspace found")
    | some _ws =>
      match workspaces.find? (fun w => w.focused) with
      | none => .error (.err "no focused workspace")
      | some focused_workspace =>
        let oid := output.id
        let tmp := PERSWAY_TMP_WORKSPACE
        let cmd1 := s!"workspace {tmp}; move workspace to output {oid}; "
        match workspaces_after.find? (fun w => w.focused) with
        | none => .error (.err "no focused workspace")
        | some focused_workspace_after_closure =>
          let fnum := focused_workspace.num
          let fname := focused_workspace.name
          let restore :=
            (if focused_workspace_after_closure.num != focused_workspace.num then
              s!"workspace number {fnum}; move workspace to output {oid}; "
            else "") ++ s!"rename workspace to {fname}"
          .ok ([cmd1] ++ closure_cmds ++ [restore])

/-! Concrete sample snapshots used by the closed theorems below. -/

/-- Common scalar payload for sample nodes: a plain, non-special node. -/
def baseInfo : NodeInfo where
  id := 0
  layout := .SplitH
  rect := ⟨0, 0⟩
  focused := false
  visible := some true
  num := none
  is_window := false
  is_workspace := false
  is_output := false
  is_floating := false
  is_floating_window := false
  is_floating_container := false
  is_full_screen := false
  is_stacked := false
  is_tabbed := false

/-- A sample window leaf. -/
def win (i : Int) : Node := .mk { baseInfo with id := i, is_window := true } []

/-- A sample focused window leaf. -/
def winFocused (i : Int) : Node :=
  .mk { baseInfo with id := i, is_window := true, focused := true } []

/-- A sample workspace node. -/
def wsNode (i : Int) (n : Int) (children : List Node) : Node :=
  .mk { baseInfo with id := i, is_workspace := true, num := some n } children

/-- The focused workspace record of the samples: node id 100, number 3. -/
def ws100 : Workspace := ⟨100, 3, "3", true⟩

/-- A workspace resolution answering `ws100` for every node id. -/
def gw100 : Int → Except String Workspace := fun _ => .ok ws100

/-- A window event of the given change kind whose container is a window
leaf with the given id. -/
def evOf (c : WindowChange) (i : Int) : WindowEvent := ⟨c, win i⟩

/-- A tree whose only window has id 7: any id 42 reference into it is
stale. -/
def c1tree : Node := .mk { baseInfo with id := 1 } [wsNode 100 3 [win 7]]

/-- A stack-main workspace tree: stack container 10 holding windows 1 and
2, and main window 3. -/
def c2tree : Node :=
  .mk { baseInfo with id := 1 }
    [wsNode 100 3 [Node.mk { baseInfo with id := 10 } [win 1, win 2], win 3]]

/-- A tree holding a single window, id 7, 800x600, with the given current
layout. -/
def c3info (l : NodeLayout) : NodeInfo :=
  { baseInfo with id := 7, is_window := true, rect := ⟨800, 600⟩, layout := l }

def c3tree (l : NodeLayout) : Node :=
  .mk { baseInfo with id := 1 } [Node.mk (c3info l) []]

/-- A stack-main workspace with exactly two top-level nodes, the first a
bare window leaf (id 5), the second the main window (id 6). -/
def c4tree : Node := .mk { baseInfo with id := 1 } [wsNode 100 3 [win 5, win 6]]

/-- After a close: a workspace whose only top-level node is the focused
window 5 (one window overall). -/
def c5treeA : Node := .mk { baseInfo with id := 1 } [wsNode 100 3 [winFocused 5]]

/-- After a close: a workspace whose only top-level node is a stack
container with two windows, 5 (focused) and 6. -/
def c5treeB : Node :=
  .mk { baseInfo with id := 1 }
    [wsNode 100 3 [Node.mk { baseInfo with id := 10 } [winFocused 5, win 6]]]

/-- A policy store mapping workspace 3 to `StackMain{70, Tabbed}`. -/
def storeSM : Store := [(3, ⟨.StackMain 70 .Tabbed⟩)]

/-- A policy store mapping workspace 3 to `Spiral`. -/
def storeSp : Store := [(3, ⟨.Spiral⟩)]

/-- A tree for the relayout samples: output 5 hosting workspace 100
(number 3). -/
def c9tree : Node :=
  .mk { baseInfo with id := 1 }
    [Node.mk { baseInfo with id := 5, is_output := true } [wsNode 100 3 []]]

/-- The focused workspace before the relayout dance. -/
def c9before : Workspace := ⟨100, 3, "1:web", true⟩

/-- A differently numbered focused workspace after the dance. -/
def c9after : Workspace := ⟨200, 4, "4", true⟩

/-! The claims. -/

/-- C1: the claim states that a stale container id (absent from the fresh
tree snapshot) makes both the spiral Focus handling and the stack-main New
handling skip the operation, returning success.  The spiral engine does
skip; `StackMain::on_new_window`, however, resolves the event node with
`unwrap_or_else(|| panic!(..))` and panics on id 42, so the New handling
raises instead of skipping. -/
theorem stale_new_window_panics_spiral_skips :
    Spiral.layout ⟨none, none⟩ 1000 (evOf .Focus 42) c1tree gw100
      = (⟨some 42, some 1000⟩, [])
    ∧ StackMain.on_new_window 70 .Tabbed c1tree (evOf .New 42) gw100
      = .error (.panic "no node found with id 42") := by
  exact ⟨rfl, rfl⟩

set_option maxRecDepth 10000 in
/-- C2: on a stack of windows 1 and 2 with main window 3,
`stack-main-rotate-next` issues a first command batch containing no
pairwise swap at all (only repeated focus commands), followed by a single
swap of main with the stack's first window: the claimed chained pairwise
swaps of the stack are absent in the forward direction. -/
theorem rotate_next_first_batch_has_no_swaps :
    StackMain.stack_main_rotate false c2tree [ws100] c2tree =
      .ok ["[con_id=1] focus: [con_id=3] focus; [con_id=1] focus: [con_id=3] focus; ",
        "[con_id=3] focus; swap container with con_id 1; [con_id=1] focus"]
    ∧ ¬ ("swap".data <:+:
        "[con_id=1] focus: [con_id=3] focus; [con_id=1] focus: [con_id=3] focus; ".data) := by
  exact ⟨rfl, by decide⟩

/-- C3: on a Focus event that passes the throttle, dedup, stale-id,
special-workspace and floating/fullscreen/tabbed/stacked gates, the spiral
engine wants a vertical split when the node is strictly taller than wide
and a horizontal split otherwise, and issues the corresponding split
command exactly when the desired orientation differs from the node's
current layout. -/
theorem spiral_focus_split_orientation
    (st : SpiralState) (now : Nat) (event : WindowEvent) (tree : Node)
    (workspaceOf : Int → Except String Workspace) (node : Node) (ws : Workspace)
    (hth : spiralThrottled st.last_layout_time now = false)
    (hdedup : (st.last_focused_id == some event.container.id) = false)
    (hfind : Node.find (fun i => i.id == event.container.id) tree = some node)
    (hws : workspaceOf node.id = .ok ws)
    (hskip : should_skip_layout_of_workspace ws = false)
    (h1 : node.info.is_floating_window = false)
    (h2 : node.info.is_floating_container = false)
    (h3 : node.info.is_full_screen = false)
    (h4 : node.info.is_stacked = false)
    (h5 : node.info.is_tabbed = false) :
    (Spiral.layout st now event tree workspaceOf).2 =
      if node.info.layout ==
          (if node.info.rect.height > node.info.rect.width then NodeLayout.SplitV
          else NodeLayout.SplitH) then []
      else if node.info.rect.height > node.info.rect.width then
        ["[con_id=" ++ toString node.id ++ "] split v"]
      else
        ["[con_id=" ++ toString node.id ++ "] split h"] := by
  by_cases hgt : node.info.rect.height > node.info.rect.width <;>
    simp [Spiral.layout, hth, hdedup, hfind, hws, hskip, h1, h2, h3, h4, h5, hgt] <;>
    split <;> rfl

/-- Witness for C3: the single 800x600 window (id 7) currently split
vertically receives `split h` on Focus, and once its layout is already
horizontal the same event issues no command. -/
theorem spiral_focus_split_orientation_witness :
    (Spiral.layout ⟨none, none⟩ 100 (evOf .Focus 7) (c3tree .SplitV) gw100).2
      = ["[con_id=7] split h"]
    ∧ (Spiral.layout ⟨none, none⟩ 100 (evOf .Focus 7) (c3tree .SplitH) gw100).2
      = [] := by
  constructor
  · exact (spiral_focus_split_orientation ⟨none, none⟩ 100 (evOf .Focus 7)
      (c3tree .SplitV) gw100 (Node.mk (c3info .SplitV) []) ws100 rfl rfl rfl rfl rfl
      rfl rfl rfl rfl rfl)
  · exact (spiral_focus_split_orientation ⟨none, none⟩ 100 (evOf .Focus 7)
      (c3tree .SplitH) gw100 (Node.mk (c3info .SplitH) []) ws100 rfl rfl rfl rfl rfl
      rfl rfl rfl rfl rfl)

/-- C4: a New event on a `StackMain{size, arrangement}` workspace whose
two top-level nodes start with a bare window leaf converts that leaf: the
issued command focuses it, applies the arrangement's layout commands,
resizes it to `100 - size` percent width, and refocuses the main (last)
top-level node. -/
theorem new_window_two_nodes_converts_stack_leaf
    (size : Nat) (sl : StackLayout) (tree : Node) (event : WindowEvent)
    (workspaceOf : Int → Except String Workspace)
    (node wstree stackNode mainNode : Node) (ws : Workspace)
    (_hsize : size ≤ 100)
    (hfind : Node.find (fun i => i.id == event.container.id) tree = some node)
    (hws : workspaceOf node.id = .ok ws)
    (hskip : should_skip_layout_of_workspace ws = false)
    (hfl : node.info.is_floating = false)
    (hfs : node.info.is_full_screen = false)
    (hwst : Node.find (fun i => i.id == ws.id) tree = some wstree)
    (hnodes : wstree.nodes = [stackNode, mainNode])
    (hleaf : stackNode.info.is_window = true) :
    StackMain.on_new_window size sl tree event workspaceOf =
      .ok ["[con_id=" ++ toString stackNode.id ++ "] focus; " ++ layoutCmdOf sl
        ++ "; resize set width " ++ toString (100 - size)
        ++ "; [con_id=" ++ toString mainNode.id ++ "] focus"] := by
  simp [StackMain.on_new_window, hfind, hws, hskip, hfl, hfs, hwst, hnodes, hleaf,
    List.getLast?]
  rfl

/-- Witness for C4: with size 67 and the tabbed arrangement, the bare
stack leaf (id 5) is tabbed, resized to `100 - 67 = 33` percent and main
(id 6) is refocused. -/
theorem new_window_two_nodes_converts_stack_leaf_witness :
    StackMain.on_new_window 67 .Tabbed c4tree (evOf .New 6) gw100 =
      .ok ["[con_id=5] focus; split v; layout tabbed; resize set width 33; [con_id=6] focus"] := by
  exact new_window_two_nodes_converts_stack_leaf 67 .Tabbed c4tree (evOf .New 6)
    gw100 (win 6) (wsNode 100 3 [win 5, win 6]) (win 5) (win 6) ws100
    (by decide) rfl rfl rfl rfl rfl rfl rfl rfl

/-- C5: a Close event on a focused StackMain workspace with exactly one
remaining top-level node that is not the closed container focuses the
chosen stack window (the focused one, else the visible one) and either
flattens it (horizontal split layout, move up) when exactly one window
remains in the whole workspace tree, or moves it into the main position
(move right, resize to `size` percent) otherwise. -/
theorem close_window_single_slot_commands
    (size : Nat) (tree : Node) (event : WindowEvent) (workspaces : List Workspace)
    (ws : Workspace) (wstree stackNode sc : Node)
    (hfw : getFocusedWorkspace workspaces = .ok ws)
    (hskip : should_skip_layout_of_workspace ws = false)
    (hwst : Node.find (fun i => i.id == ws.id) tree = some wstree)
    (hnodes : wstree.nodes = [stackNode])
    (hne : (stackNode.id != event.container.id) = true)
    (hsc : stackCurrentOf stackNode = some sc) :
    StackMain.on_close_window size tree event workspaces =
      .ok [if (wstree.toList.filter (fun n => n.info.is_window)).length == 1 then
          "[con_id=" ++ toString sc.id ++ "] focus; layout splith; move up"
        else
          "[con_id=" ++ toString sc.id ++ "] focus; move right; resize set width "
            ++ toString size ++ ""] := by
  simp [StackMain.on_close_window, hfw, hskip, hwst, hnodes, hne, hsc]
  split <;> simp only [instToStringString, String.append_empty]

/-- Witness for C5: closing window 9 with only window 5 left overall
flattens window 5; with stack container 10 still holding windows 5 and 6,
window 5 is instead moved right and resized to 70 percent. -/
theorem close_window_single_slot_commands_witness :
    StackMain.on_close_window 70 c5treeA (evOf .Close 9) [ws100] =
      .ok ["[con_id=5] focus; layout splith; move up"]
    ∧ StackMain.on_close_window 70 c5treeB (evOf .Close 9) [ws100] =
      .ok ["[con_id=5] focus; move right; resize set width 70"] := by
  constructor
  · exact close_window_single_slot_commands 70 c5treeA (evOf .Close 9) [ws100]
      ws100 (wsNode 100 3 [winFocused 5]) (winFocused 5) (winFocused 5)
      rfl rfl rfl rfl rfl rfl
  · exact close_window_single_slot_commands 70 c5treeB (evOf .Close 9) [ws100]
      ws100 (wsNode 100 3 [Node.mk { baseInfo with id := 10 } [winFocused 5, win 6]])
      (Node.mk { baseInfo with id := 10 } [winFocused 5, win 6]) (winFocused 5)
      rfl rfl rfl rfl rfl rfl

/-- C6: a `ChangeLayout` command whose requested policy equals the policy
stored for the focused workspace returns success, leaves the policy store
unchanged, triggers no relayout and issues no compositor command. -/
theorem change_layout_idempotent
    (store : Store) (default_layout : WorkspaceLayout)
    (workspaces : List Workspace) (tree tree2 : Node) (ws : Workspace)
    (l : WorkspaceLayout)
    (hfw : getFocusedWorkspace workspaces = .ok ws)
    (hnum : 0 ≤ ws.num)
    (hstore : storeLookup store ws.num = some ⟨l⟩) :
    handle_command store default_layout workspaces tree tree2 (.ChangeLayout l) =
      (.ok (), store, noEffects) := by
  simp [handle_command, hfw, not_lt.mpr hnum, get_workspace_config, hstore]

/-- Witness for C6: re-requesting the `StackMain{70, Tabbed}` policy
already stored for workspace 3 succeeds and changes nothing. -/
theorem change_layout_idempotent_witness :
    handle_command storeSM .Spiral [ws100] c4tree c4tree
      (.ChangeLayout (.StackMain 70 .Tabbed)) = (.ok (), storeSM, noEffects) :=
  change_layout_idempotent storeSM .Spiral [ws100] c4tree c4tree ws100
    (.StackMain 70 .Tabbed) rfl (by decide) rfl

/-- C7: each of the five stack commands fails when the focused workspace's
stored policy is not `StackMain`, with a failure message ending in the
remediation `change-layout stack-main` (in particular for `Spiral`), and
the `require_stack_main` precondition check passes for every `StackMain`
policy. -/
theorem stack_commands_require_stack_main
    (store : Store) (default_layout : WorkspaceLayout)
    (workspaces : List Workspace) (tree tree2 : Node) (ws : Workspace)
    (cfg : WorkspaceConfig)
    (hfw : getFocusedWorkspace workspaces = .ok ws)
    (hnum : 0 ≤ ws.num)
    (hstore : storeLookup store ws.num = some cfg)
    (c : PerswayCommand)
    (hc : c ∈ [PerswayCommand.StackFocusNext, .StackFocusPrev,
      .StackMainRotateNext, .StackMainRotatePrev, .StackSwapMain]) :
    ((∀ s sl, cfg.layout ≠ .StackMain s sl) →
      ∃ pre, (handle_command store default_layout workspaces tree tree2 c).1 =
        .error (.err (pre ++ "change-layout stack-main")))
    ∧ (∀ s sl name, require_stack_main ws.num ws.name (.StackMain s sl) name = .ok ()) := by
  constructor
  · intro hnot
    have hreq : ∀ name, require_stack_main ws.num ws.name cfg.layout name =
        .error (requireFailPre ws.num ws.name cfg.layout.debugFmt name
          ++ "change-layout stack-main") := by
      intro name
      cases hL : cfg.layout with
      | Spiral => rfl
      | Manual => rfl
      | StackMain s sl => exact absurd hL (hnot s sl)
    refine ⟨requireFailPre ws.num ws.name cfg.layout.debugFmt ?_, ?_⟩
    · exact match c with
        | .StackFocusNext => "stack-focus-next"
        | .StackFocusPrev => "stack-focus-prev"
        | .StackMainRotateNext => "stack-main-rotate-next"
        | .StackMainRotatePrev => "stack-main-rotate-prev"
        | _ => "stack-swap-main"
    · fin_cases hc <;>
        simp [handle_command, hfw, not_lt.mpr hnum, get_workspace_config, hstore,
          hreq, runCtrl]
  · intro s sl name
    rfl

/-- Witness for C7: `stack-focus-next` on the Spiral-policy workspace 3
fails with the remediation-suffixed message, while the precondition check
passes under a `StackMain` policy. -/
theorem stack_commands_require_stack_main_witness :
    (∃ pre, (handle_command storeSp .Spiral [ws100] c4tree c4tree .StackFocusNext).1 =
      .error (.err (pre ++ "change-layout stack-main")))
    ∧ require_stack_main 3 "3" (.StackMain 70 .Tabbed) "stack-focus-next" = .ok () := by
  have h := stack_commands_require_stack_main storeSp .Spiral [ws100] c4tree c4tree
    ws100 ⟨.Spiral⟩ rfl (by decide) rfl .StackFocusNext (by simp)
  exact ⟨h.1 (by intro s sl; simp), h.2 70 .Tabbed "stack-focus-next"⟩

/-- C8, counterexample: the socket line `persway daemon` is parseable
client input; `connection_loop` forwards its parsed command — the internal
`Daemon` variant — to the dispatcher unfiltered, and `handle_command`
executes its unreachable-rejection branch on it. -/
theorem daemon_line_reaches_dispatcher :
    dispatched_command "persway daemon" = some (.Daemon ⟨⟩)
    ∧ (handle_command storeSM .Spiral [ws100] c4tree c4tree (.Daemon ⟨⟩)).1 =
      .error (.panic "internal error: entered unreachable code") := by
  exact ⟨rfl, rfl⟩

/-- C8, amended: the dispatcher receives the internal `Daemon` variant for
exactly those control-socket lines whose tokens after the program name are
the `daemon` subcommand; every other parseable line yields a non-`Daemon`
command, so the unreachable-rejection branch is reached only by daemon
invocation lines. -/
theorem daemon_reaches_dispatcher_iff_daemon_line
    (line : String) (a : DaemonArgs) :
    dispatched_command line = some (.Daemon a) ↔
      ∃ prog, splitAsciiWhitespace line = [prog, "daemon"] := by
  unfold dispatched_command parse_command_line
  rcases hsp : splitAsciiWhitespace line with _ | ⟨prog, rest⟩
  · simp
  · simp only
    constructor
    · intro h
      split at h <;> simp_all
    · rintro ⟨p, hp⟩
      obtain ⟨rfl, rfl⟩ : prog = p ∧ rest = ["daemon"] := by
        injection hp with h1 h2
        exact ⟨h1, h2⟩
      rfl

/-- C9, counterexample: a relayout during which the focused workspace's
identity does not change (the same focused workspace record before and
after) still ends with a `rename workspace to ...` command on the
orchestrator's connection, contradicting the claim that no restore or
rename command is issued in that case. -/
theorem relayout_renames_even_when_focus_unchanged :
    relayout_workspace c9tree 3 [c9before] ["closure"] [c9before] =
      .ok ["workspace ◕‿◕; move workspace to output 5; ", "closure",
        "rename workspace to 1:web"] := by
  exact rfl

/-- C9, amended: after the replay, the switch-back and move-to-output
commands are issued if and only if the focused workspace's number differs
from the one captured before the disruption, while the rename command is
issued unconditionally, as the suffix of the final command. -/
theorem relayout_restore_structure
    (tree : Node) (ws_num : Int) (workspaces : List Workspace)
    (closure_cmds : List String) (workspaces_after : List Workspace)
    (output wsn : Node) (fb fa : Workspace)
    (hout : tree.toList.find? (fun n => n.info.is_output
      && (n.toList.any (fun m => m.info.is_workspace && m.info.num == some ws_num)))
      = some output)
    (hwsn : output.toList.find? (fun m => m.info.is_workspace
      && m.info.num == some ws_num) = some wsn)
    (hfb : workspaces.find? (fun w => w.focused) = some fb)
    (hfa : workspaces_after.find? (fun w => w.focused) = some fa) :
    relayout_workspace tree ws_num workspaces closure_cmds workspaces_after =
      .ok (["workspace " ++ PERSWAY_TMP_WORKSPACE ++ "; move workspace to output "
          ++ toString output.id ++ "; "]
        ++ closure_cmds
        ++ [(if (fa.num != fb.num) = true then
            "workspace number " ++ toString fb.num ++ "; move workspace to output "
              ++ toString output.id ++ "; "
          else "")
          ++ ("rename workspace to " ++ fb.name ++ "")]) := by
  simp [relayout_workspace, hout, hwsn, hfb, hfa]
  split <;> simp only [instToStringString, String.append_empty] <;> exact ⟨trivial, trivial⟩

/-- Witness for the amended C9: with the focused workspace changing from
number 3 to number 4 during the dance, the final command both restores
workspace 3 to output 5 and renames it. -/
theorem relayout_restore_structure_witness :
    relayout_workspace c9tree 3 [c9before] ["closure"] [c9after] =
      .ok ["workspace ◕‿◕; move workspace to output 5; ", "closure",
        "workspace number 3; move workspace to output 5; rename workspace to 1:web"] := by
  exact relayout_restore_structure c9tree 3 [c9before] ["closure"] [c9after]
    (Node.mk { baseInfo with id := 5, is_output := true } [wsNode 100 3 []])
    (wsNode 100 3 []) c9before c9after rfl rfl rfl rfl

/-- C10: each of the five stack commands, issued while the focused
workspace's policy is `StackMain` but the workspace's first top-level node
has no child nodes, returns success and issues no compositor command at
all. -/
theorem stack_commands_empty_stack_noop
    (store : Store) (default_layout : WorkspaceLayout)
    (workspaces : List Workspace) (tree tree2 : Node) (ws : Workspace)
    (s : Nat) (sl : StackLayout) (wstree stackNode : Node)
    (hfw : getFocusedWorkspace workspaces = .ok ws)
    (hnum : 0 ≤ ws.num)
    (hstore : storeLookup store ws.num = some ⟨.StackMain s sl⟩)
    (hwst : Node.find (fun i => i.id == ws.id) tree = some wstree)
    (hhead : wstree.nodes.head? = some stackNode)
    (hempty : stackNode.nodes = [])
    (c : PerswayCommand)
    (hc : c ∈ [PerswayCommand.StackFocusNext, .StackFocusPrev,
      .StackMainRotateNext, .StackMainRotatePrev, .StackSwapMain]) :
    handle_command store default_layout workspaces tree tree2 c =
      (.ok (), store, noEffects) := by
  fin_cases hc <;>
    simp [handle_command, hfw, not_lt.mpr hnum, get_workspace_config, hstore,
      runCtrl, require_stack_main, StackMain.stack_focus_advance,
      StackMain.stack_main_rotate, StackMain.stack_swap_main, hwst, hhead, hempty,
      noEffects]

/-- Witness for C10: `stack-swap-main` on the StackMain workspace 3 whose
first top-level node is the bare window 5 succeeds without any compositor
command. -/
theorem stack_commands_empty_stack_noop_witness :
    handle_command storeSM .Spiral [ws100] c4tree c4tree .StackSwapMain =
      (.ok (), storeSM, noEffects) := by
  exact stack_commands_empty_stack_noop storeSM .Spiral [ws100] c4tree c4tree ws100
    70 .Tabbed (wsNode 100 3 [win 5, win 6]) (win 5) rfl (by decide) rfl rfl rfl rfl
    .StackSwapMain (by simp)

end Persway
